import Mathlib

/-!
Verification of the MeetingMind workflow controller and its three Gemini
service wrappers, shallowly embedded from the TypeScript sources:

* `src/unnamed/part_000` — the `App` component: workflow state
  (`step`, `processingState`, `data`, `audioFile`), `handleError`,
  `handleFileSelect`, `handleGenerateMinutes`, `resetApp`, and the header
  step-indicator / view callbacks.
* `src/services/geminiService.ts` — `transcribeAudio`, `correctTranscript`,
  `generateMeetingMinutes`.
* `src/components/TranscriptView.tsx` — `handleDownload`.

Modelling conventions:

* A JavaScript string that may be `undefined` is modelled as `Option String`
  where it matters (a response's `text` field); an error's `message` is
  modelled as a `String`, with `""` standing for both the empty and the
  absent message — `||` and `&&` treat the two identically (falsy).
* Each remote call's outcome is an oracle value `GatewayResult`: either a
  response carrying an optional text field, or a thrown error carrying a
  message.  Any throw inside a service's `try` block (including the
  `getAI` key check) is covered by the `err` constructor.
* `async` handlers are state transformers: a function of the pre-state and
  the oracle values for the calls they make.
* Which handler can fire in which state is read off the render conditions
  of the JSX (`enabled` below); `applyAction` is the transition function.
-/

/-- `AppStep` from `src/types.ts`. -/
inductive AppStep where
  | AUTH
  | UPLOAD
  | TRANSCRIBE
  | MINUTES
deriving DecidableEq, Repr

/-- `ProcessingStatus` from `src/types.ts`. -/
inductive ProcessingStatus where
  | IDLE
  | PROCESSING
  | SUCCESS
  | ERROR
deriving DecidableEq, Repr

/-- `ProcessingState` from `src/types.ts`: `{ status, message, error? }`. -/
structure ProcessingState where
  status : ProcessingStatus
  message : String
  error : Option String
deriving DecidableEq, Repr

/-- `MeetingData` from `src/types.ts`. -/
structure MeetingData where
  fileName : String
  fileType : String
  transcript : String
  minutes : String
deriving DecidableEq, Repr

/-- The `File` object held in the `audioFile` state slot, together with the
result of `fileToBase64` (an external helper assumed to succeed). -/
structure AudioFile where
  name : String
  type : String
  base64 : String
deriving DecidableEq, Repr

/-- The `App` component's four `useState` slots. -/
structure AppState where
  step : AppStep
  processingState : ProcessingState
  data : MeetingData
  audioFile : Option AudioFile
deriving DecidableEq, Repr

/-- Oracle for one gateway call: `ok t` is a response whose `text` field is
`t` (`none` = absent), `err m` is a throw whose `message` is `m`
(`""` = absent message). -/
inductive GatewayResult where
  | ok (text : Option String)
  | err (message : String)
deriving DecidableEq, Repr

/-- JavaScript `t || fallback` on a possibly-absent string: the fallback is
used when `t` is `undefined` or `""` (both falsy). -/
def orFallback (t : Option String) (fallback : String) : String :=
  match t with
  | none => fallback
  | some s => if s = "" then fallback else s

/-- `transcribeAudio` (`geminiService.ts` lines 23–68): on a response,
`return response.text || "No transcript generated."`; on a throw,
`throw new Error(error.message || "Failed to transcribe audio.")`. -/
def transcribeAudio (base64Audio mimeType : String) (g : GatewayResult) :
    Except String String :=
  match g with
  | .ok t => .ok (orFallback t "No transcript generated.")
  | .err e => .error (if e = "" then "Failed to transcribe audio." else e)

/-- `correctTranscript` (`geminiService.ts` lines 73–102): on a response,
`return response.text || rawTranscript`; on a throw,
`throw new Error("Failed to correct transcript.")`. -/
def correctTranscript (rawTranscript : String) (g : GatewayResult) :
    Except String String :=
  match g with
  | .ok t => .ok (orFallback t rawTranscript)
  | .err _ => .error "Failed to correct transcript."

/-- `generateMeetingMinutes` (`geminiService.ts` lines 107–146): on a
response, `return response.text || "No minutes generated."`; on a throw,
`throw new Error("Failed to generate meeting minutes.")`. -/
def generateMeetingMinutes (transcript : String) (g : GatewayResult) :
    Except String String :=
  match g with
  | .ok t => .ok (orFallback t "No minutes generated.")
  | .err _ => .error "Failed to generate meeting minutes."

/-- `pat` occurs as a contiguous run inside `s` (character lists). -/
def containsSub (pat : List Char) : List Char → Bool
  | [] => pat.isEmpty
  | c :: rest => pat.isPrefixOf (c :: rest) || containsSub pat rest

/-- JavaScript `s.includes(sub)`. -/
def includes (s sub : String) : Bool :=
  containsSub sub.data s.data

/-- The substring `handleError` matches to classify a credential error. -/
def credentialSubstring : String := "Requested entity was not found"

/-- `handleError` (`part_000` lines 63–79). -/
def handleError (s : AppState) (errorMessage : String) (message : String) :
    AppState :=
  if errorMessage ≠ "" ∧ includes errorMessage credentialSubstring then
    { s with
        processingState :=
          ⟨.ERROR, "API Key Error: Please re-select your API Key.",
            some errorMessage⟩,
        step := .AUTH }
  else
    { s with
        processingState :=
          ⟨.ERROR, message,
            some (if errorMessage = "" then "An unknown error occurred"
                  else errorMessage)⟩ }

/-- `handleFileSelect` (`part_000` lines 81–99): two sequential gateway
calls (`gTranscribe` for `transcribeAudio`, `gCorrect` for
`correctTranscript`), each state update in source order. -/
def handleFileSelect (s : AppState) (file : AudioFile)
    (gTranscribe gCorrect : GatewayResult) : AppState :=
  let s1 := { s with
      audioFile := some file,
      data := { s.data with fileName := file.name, fileType := file.type },
      processingState :=
        ⟨.PROCESSING, "Transcribing audio... (Step 1/2)", none⟩ }
  match transcribeAudio file.base64 file.type gTranscribe with
  | .error e => handleError s1 e "Failed to process audio."
  | .ok rawTranscript =>
    let s2 := { s1 with
        processingState :=
          ⟨.PROCESSING, "Refining transcript with AI... (Step 2/2)", none⟩ }
    match correctTranscript rawTranscript gCorrect with
    | .error e => handleError s2 e "Failed to process audio."
    | .ok refinedTranscript =>
      { s2 with
          data := { s2.data with transcript := refinedTranscript },
          step := .TRANSCRIBE,
          processingState := ⟨.SUCCESS, "Processing complete", none⟩ }

/-- `handleGenerateMinutes` (`part_000` lines 101–113).  The second
component records whether a gateway call was issued: `if (!data.transcript)
return;` bails out before any call. -/
def handleGenerateMinutes (s : AppState) (g : GatewayResult) :
    AppState × Bool :=
  if s.data.transcript = "" then (s, false)
  else
    let s1 := { s with
        processingState :=
          ⟨.PROCESSING, "Generating meeting minutes...", none⟩ }
    match generateMeetingMinutes s.data.transcript g with
    | .error e => (handleError s1 e "Failed to generate minutes.", true)
    | .ok minutes =>
      ({ s1 with
          data := { s1.data with minutes := minutes },
          step := .MINUTES,
          processingState := ⟨.SUCCESS, "Minutes generated", none⟩ }, true)

/-- The empty `MeetingData` used at initialisation and on reset. -/
def initialData : MeetingData := ⟨"", "", "", ""⟩

/-- `resetApp` (`part_000` lines 115–120). -/
def resetApp (_ : AppState) : AppState :=
  ⟨.UPLOAD, ⟨.IDLE, "", none⟩, initialData, none⟩

/-- The header step-indicator's "1. Upload" click (`part_000` line 140):
`setStep(AppStep.UPLOAD)`. -/
def navUpload (s : AppState) : AppState :=
  { s with step := .UPLOAD }

/-- The header step-indicator's "2. Review" click (`part_000` line 147):
`(step === MINUTES || step === TRANSCRIBE) && setStep(TRANSCRIBE)`. -/
def navReview (s : AppState) : AppState :=
  if s.step = .MINUTES ∨ s.step = .TRANSCRIBE then
    { s with step := .TRANSCRIBE }
  else s

/-- `MinutesView`'s `onBack` (`part_000` line 264): `setStep(TRANSCRIBE)`. -/
def minutesBack (s : AppState) : AppState :=
  { s with step := .TRANSCRIBE }

/-- `TranscriptView`'s `onTranscriptChange` (`part_000` line 253). -/
def editTranscript (s : AppState) (t : String) : AppState :=
  { s with data := { s.data with transcript := t } }

/-- The error notification's "Dismiss" click (`part_000` line 176). -/
def dismissError (s : AppState) : AppState :=
  { s with processingState := ⟨.IDLE, "", none⟩ }

/-- `handleApiKeySelection` (`part_000` lines 50–60), success branch. -/
def apiKeySelectionOk (s : AppState) : AppState :=
  { s with step := .UPLOAD }

/-- `handleApiKeySelection` (`part_000` lines 50–60), throw branch:
`handleError(e, "Failed to select API Key. Please try again.")`. -/
def apiKeySelectionErr (s : AppState) (e : String) : AppState :=
  handleError s e "Failed to select API Key. Please try again."

/-- The mount-time `checkKey` effect (`part_000` lines 26–47): resolves to
`UPLOAD` when a credential is available, `AUTH` otherwise. -/
def checkKey (s : AppState) (keyAvailable : Bool) : AppState :=
  if keyAvailable then { s with step := .UPLOAD } else { s with step := .AUTH }

/-- One user/system action on the controller, with the oracle values for
the gateway calls it performs. -/
inductive AppAction where
  | fileSelect (file : AudioFile) (gTranscribe gCorrect : GatewayResult)
  | generateMinutes (g : GatewayResult)
  | reset
  | navUpload
  | navReview
  | minutesBack
  | editTranscript (t : String)
  | dismissError
  | apiKeyOk
  | apiKeyErr (e : String)
  | checkKey (keyAvailable : Bool)
deriving DecidableEq, Repr

/-- When each action can fire, read off the JSX render conditions:
`FileDropzone` renders only at `UPLOAD` (and is disabled while
`PROCESSING`), `TranscriptView` only at `TRANSCRIBE` (its buttons disabled
while `PROCESSING`), `MinutesView` only at `MINUTES`, the step indicator
only when `step !== AUTH`, the auth button only at `AUTH`, the dismiss
button only when status is `ERROR`, and `checkKey` runs once at mount
(while the state is still the initial `AUTH`). -/
def enabled (s : AppState) : AppAction → Prop
  | .fileSelect _ _ _ =>
      s.step = .UPLOAD ∧ s.processingState.status ≠ .PROCESSING
  | .generateMinutes _ =>
      s.step = .TRANSCRIBE ∧ s.processingState.status ≠ .PROCESSING
  | .reset => s.step = .MINUTES
  | .navUpload => s.step ≠ .AUTH
  | .navReview => s.step ≠ .AUTH
  | .minutesBack => s.step = .MINUTES
  | .editTranscript _ => s.step = .TRANSCRIBE
  | .dismissError => s.processingState.status = .ERROR
  | .apiKeyOk => s.step = .AUTH
  | .apiKeyErr _ => s.step = .AUTH
  | .checkKey _ => s.step = .AUTH

/-- The transition function: the state after the handler for `a` runs. -/
def applyAction (s : AppState) : AppAction → AppState
  | .fileSelect f g1 g2 => handleFileSelect s f g1 g2
  | .generateMinutes g => (handleGenerateMinutes s g).1
  | .reset => resetApp s
  | .navUpload => navUpload s
  | .navReview => navReview s
  | .minutesBack => minutesBack s
  | .editTranscript t => editTranscript s t
  | .dismissError => dismissError s
  | .apiKeyOk => apiKeySelectionOk s
  | .apiKeyErr e => apiKeySelectionErr s e
  | .checkKey b => checkKey s b

/-- The initial state of the four `useState` slots (`part_000` lines
10–23). -/
def initState : AppState :=
  ⟨.AUTH, ⟨.IDLE, "", none⟩, initialData, none⟩

/-- States the controller can actually be in: the initial state and
everything reachable through enabled actions. -/
inductive Reachable : AppState → Prop where
  | init : Reachable initState
  | step {s : AppState} {a : AppAction} :
      Reachable s → enabled s a → Reachable (applyAction s a)

/-- The state right after the mount-time `checkKey` effect found a
credential: `UPLOAD` step, everything else still initial.  Used as a
concrete instantiation point in closed statements below. -/
def initState2 : AppState :=
  ⟨.UPLOAD, ⟨.IDLE, "", none⟩, initialData, none⟩

/-- A concrete mid-session state: `TRANSCRIBE` step with a fully populated
meeting record from a finished upload cycle. -/
def richState : AppState :=
  ⟨.TRANSCRIBE, ⟨.SUCCESS, "Processing complete", none⟩,
    ⟨"meeting.mp3", "audio/mpeg", "Speaker 1: Hello.", ""⟩,
    some ⟨"meeting.mp3", "audio/mpeg", "QUJD"⟩⟩

/-- The request text `generateMeetingMinutes` sends to the gateway
(`geminiService.ts` lines 112–138): the fixed instruction template with
the transcript interpolated at the end. -/
def minutesRequest (transcript : String) : String :=
  "You are an expert executive assistant. Based on the following meeting transcript, generate structured Meeting Minutes in Markdown format.\n      \n      **Language Rules:**\n      - The output language MUST match the primary language of the transcript.\n      - If the transcript is in Chinese, the minutes MUST be in **Traditional Chinese (Taiwan)**.\n      \n      The output should strictly follow this structure (translate headers if output is not English):\n      # Meeting Minutes / 會議紀錄\n      \n      ## 1. Summary / 摘要\n      (A brief executive summary of the meeting)\n\n      ## 2. Attendees / 出席人員\n      (List of inferred speakers or names mentioned)\n\n      ## 3. Key Discussion Points / 重點討論事項\n      (Bulleted list of main topics discussed)\n\n      ## 4. Decisions Made / 決議事項\n      (List of any conclusions or agreements reached)\n\n      ## 5. Action Items / 待辦事項\n      (Checklist of tasks assigned to specific people, if any)\n\n      ---\n      Transcript:\n      "
    ++ transcript

/-- JavaScript `fileName.split('.')` specialised to the separator `'.'`,
on character lists: always returns a non-empty list of segments; a
leading separator yields a leading empty segment. -/
def splitOnDot : List Char → List (List Char)
  | [] => [[]]
  | c :: rest =>
    if c = '.' then [] :: splitOnDot rest
    else
      match splitOnDot rest with
      | [] => [[c]]
      | r :: rs => (c :: r) :: rs

/-- `handleDownload`'s artifact name (`TranscriptView.tsx` line 26):
the template `fileName.split('.')[0]` followed by `_transcript.txt`. -/
def downloadName (fileName : String) : String :=
  String.mk ((splitOnDot fileName.data).headD []) ++ "_transcript.txt"

/-- The basename the spec's words describe: "the name with its extension
removed", i.e. everything before the last dot (the whole name when it has
no dot).  Stated from the spec, for comparison with `downloadName`. -/
def specBasename (fileName : String) : String :=
  if fileName.data.contains '.' then
    String.mk (((fileName.data.reverse.dropWhile (· != '.')).drop 1).reverse)
  else fileName

/-! ### Basic facts about the handlers -/

lemma orFallback_ne_empty {fb : String} (t : Option String) (h : fb ≠ "") :
    orFallback t fb ≠ "" := by
  cases t with
  | none => simpa [orFallback] using h
  | some s =>
    by_cases hs : s = "" <;> simp [orFallback, hs, h]

lemma handleError_step_or (s : AppState) (e m : String) :
    (handleError s e m).step = s.step ∨ (handleError s e m).step = .AUTH := by
  unfold handleError
  split
  · exact Or.inr rfl
  · exact Or.inl rfl

lemma handleError_data (s : AppState) (e m : String) :
    (handleError s e m).data = s.data := by
  unfold handleError
  split <;> rfl

lemma handleError_audioFile (s : AppState) (e m : String) :
    (handleError s e m).audioFile = s.audioFile := by
  unfold handleError
  split <;> rfl

lemma handleError_not_credential (s : AppState) (e m : String)
    (h : includes e credentialSubstring = false) :
    handleError s e m =
      { s with
          processingState :=
            ⟨.ERROR, m,
              some (if e = "" then "An unknown error occurred" else e)⟩ } := by
  unfold handleError
  rw [if_neg]
  rintro ⟨-, h2⟩
  rw [h] at h2
  cases h2

lemma includes_empty_eq_false :
    includes "" credentialSubstring = false := by decide

/-! ### Unfolding equations for `handleFileSelect` and
`handleGenerateMinutes`, one per shape of the gateway oracles -/

lemma handleFileSelect_ok_ok (s : AppState) (f : AudioFile)
    (t1 t2 : Option String) :
    handleFileSelect s f (.ok t1) (.ok t2) =
      { s with
          audioFile := some f,
          data := { s.data with
                      fileName := f.name, fileType := f.type,
                      transcript :=
                        orFallback t2
                          (orFallback t1 "No transcript generated.") },
          step := .TRANSCRIBE,
          processingState := ⟨.SUCCESS, "Processing complete", none⟩ } := rfl

lemma handleFileSelect_err1 (s : AppState) (f : AudioFile) (e : String)
    (g2 : GatewayResult) :
    handleFileSelect s f (.err e) g2 =
      handleError
        { s with
            audioFile := some f,
            data := { s.data with fileName := f.name, fileType := f.type },
            processingState :=
              ⟨.PROCESSING, "Transcribing audio... (Step 1/2)", none⟩ }
        (if e = "" then "Failed to transcribe audio." else e)
        "Failed to process audio." := rfl

lemma handleFileSelect_ok_err (s : AppState) (f : AudioFile)
    (t1 : Option String) (e2 : String) :
    handleFileSelect s f (.ok t1) (.err e2) =
      handleError
        { s with
            audioFile := some f,
            data := { s.data with fileName := f.name, fileType := f.type },
            processingState :=
              ⟨.PROCESSING, "Refining transcript with AI... (Step 2/2)",
                none⟩ }
        "Failed to correct transcript." "Failed to process audio." := rfl

lemma handleGenerateMinutes_ok (s : AppState) (t : Option String)
    (h : s.data.transcript ≠ "") :
    handleGenerateMinutes s (.ok t) =
      ({ s with
          data := { s.data with
                      minutes := orFallback t "No minutes generated." },
          step := .MINUTES,
          processingState := ⟨.SUCCESS, "Minutes generated", none⟩ },
        true) := by
  unfold handleGenerateMinutes
  rw [if_neg h]
  rfl

lemma handleGenerateMinutes_err (s : AppState) (e : String)
    (h : s.data.transcript ≠ "") :
    handleGenerateMinutes s (.err e) =
      (handleError
        { s with
            processingState :=
              ⟨.PROCESSING, "Generating meeting minutes...", none⟩ }
        "Failed to generate meeting minutes." "Failed to generate minutes.",
        true) := by
  unfold handleGenerateMinutes
  rw [if_neg h]
  rfl

/-! ### Claim theorems -/

/-- C1: for every caught error whose message contains the exact substring
"Requested entity was not found", `handleError` sets the step to `AUTH`
and the processing state to `ERROR` with the re-select-credentials
message, whatever per-operation message the caller (any of the three
service call sites) supplied. -/
theorem C1_credential_error_routes_to_auth (s : AppState) (e m : String)
    (h : includes e credentialSubstring = true) :
    (handleError s e m).step = .AUTH ∧
    (handleError s e m).processingState =
      ⟨.ERROR, "API Key Error: Please re-select your API Key.", some e⟩ := by
  have he : e ≠ "" := by
    intro h0
    rw [h0, includes_empty_eq_false] at h
    cases h
  unfold handleError
  rw [if_pos ⟨he, h⟩]
  exact ⟨rfl, rfl⟩

theorem C1_credential_error_routes_to_auth_witness :
    includes "Requested entity was not found: API key invalid"
        credentialSubstring = true ∧
    ((handleError initState
        "Requested entity was not found: API key invalid"
        "Failed to generate minutes.").step = .AUTH ∧
      (handleError initState
        "Requested entity was not found: API key invalid"
        "Failed to generate minutes.").processingState =
        ⟨.ERROR, "API Key Error: Please re-select your API Key.",
          some "Requested entity was not found: API key invalid"⟩) :=
  ⟨by decide,
    C1_credential_error_routes_to_auth initState
      "Requested entity was not found: API key invalid"
      "Failed to generate minutes." (by decide)⟩

/-- C2: if transcription succeeds but the Correction Service raises, the
state after error handling is still at `UPLOAD` and the record's
transcript is still the empty string — the raw transcript is never
stored. -/
theorem C2_correction_failure_keeps_upload_and_empty_transcript
    (s : AppState) (f : AudioFile) (t : Option String) (e : String)
    (hstep : s.step = .UPLOAD) (htr : s.data.transcript = "") :
    (handleFileSelect s f (.ok t) (.err e)).step = .UPLOAD ∧
    (handleFileSelect s f (.ok t) (.err e)).data.transcript = "" := by
  rw [handleFileSelect_ok_err,
    handleError_not_credential _ _ _ (by decide)]
  exact ⟨hstep, htr⟩

theorem C2_correction_failure_keeps_upload_and_empty_transcript_witness :
    initState2.step = .UPLOAD ∧ initState2.data.transcript = "" ∧
    ((handleFileSelect initState2 ⟨"meeting.mp3", "audio/mpeg", "QUJD"⟩
        (.ok (some "Speaker 1: Hello.")) (.err "network down")).step =
        .UPLOAD ∧
      (handleFileSelect initState2 ⟨"meeting.mp3", "audio/mpeg", "QUJD"⟩
        (.ok (some "Speaker 1: Hello.")) (.err "network down")
          ).data.transcript = "") :=
  ⟨rfl, rfl,
    C2_correction_failure_keeps_upload_and_empty_transcript initState2
      ⟨"meeting.mp3", "audio/mpeg", "QUJD"⟩ (some "Speaker 1: Hello.")
      "network down" rfl rfl⟩

/-- C5: from every state, `resetApp` returns the `UPLOAD` step with all
four record fields empty, no audio handle, and an idle status; applying
it twice gives exactly the state of applying it once. -/
theorem C5_reset_clears_everything_and_is_idempotent (s : AppState) :
    (resetApp s).step = .UPLOAD ∧
    (resetApp s).data = ⟨"", "", "", ""⟩ ∧
    (resetApp s).audioFile = none ∧
    (resetApp s).processingState = ⟨.IDLE, "", none⟩ ∧
    resetApp (resetApp s) = resetApp s :=
  ⟨rfl, rfl, rfl, rfl, rfl⟩

/-- C6: when the gateway's response text is absent or empty, the
Correction Service returns the original raw transcript unchanged instead
of failing or returning the empty response. -/
theorem C6_correction_empty_response_returns_raw (raw : String) :
    correctTranscript raw (.ok none) = .ok raw ∧
    correctTranscript raw (.ok (some "")) = .ok raw :=
  ⟨rfl, by simp [correctTranscript, orFallback]⟩

/-- C7 counterexample: on a gateway failure with a non-empty message,
`transcribeAudio` re-raises exactly the original message; no generic
"Failed to transcribe audio." classification is attached to it. -/
theorem C7_counterexample_no_generic_wrapping :
    transcribeAudio "QUJD" "audio/mpeg" (.err "Quota exceeded") =
      .error "Quota exceeded" ∧
    includes "Quota exceeded" "Failed to transcribe audio." = false :=
  ⟨rfl, by decide⟩

/-- C7 amended: `transcribeAudio` re-raises an error whose message is the
original error's message when that message is non-empty; the generic
"Failed to transcribe audio." text is used only as a fallback when the
original message is absent or empty. -/
theorem C7_amended_reraise_original_or_generic_fallback
    (b m e : String) (h : e ≠ "") :
    transcribeAudio b m (.err e) = .error e ∧
    transcribeAudio b m (.err "") =
      .error "Failed to transcribe audio." := by
  constructor
  · simp [transcribeAudio, h]
  · rfl

theorem C7_amended_reraise_original_or_generic_fallback_witness :
    "Quota exceeded" ≠ "" ∧
    (transcribeAudio "QUJD" "audio/mpeg" (.err "Quota exceeded") =
        .error "Quota exceeded" ∧
      transcribeAudio "QUJD" "audio/mpeg" (.err "") =
        .error "Failed to transcribe audio.") :=
  ⟨by decide,
    C7_amended_reraise_original_or_generic_fallback "QUJD" "audio/mpeg"
      "Quota exceeded" (by decide)⟩

/-- C9: with an empty transcript, `handleGenerateMinutes` returns before
doing anything: the state is unchanged and no gateway call is issued. -/
theorem C9_generate_minutes_noop_on_empty_transcript
    (s : AppState) (g : GatewayResult) (h : s.data.transcript = "") :
    handleGenerateMinutes s g = (s, false) := by
  unfold handleGenerateMinutes
  rw [if_pos h]

theorem C9_generate_minutes_noop_on_empty_transcript_witness :
    initState2.data.transcript = "" ∧
    handleGenerateMinutes initState2 (.ok (some "generated minutes")) =
      (initState2, false) :=
  ⟨rfl,
    C9_generate_minutes_noop_on_empty_transcript initState2
      (.ok (some "generated minutes")) rfl⟩

/-- C10: from any non-`AUTH` state the header indicator's Upload click
sets the step to `UPLOAD` and changes nothing else — record, audio
handle and processing status are untouched, so (unlike `resetApp`) a
non-empty record survives into the `UPLOAD` state. -/
theorem C10_nav_upload_frame (s : AppState) (h : enabled s .navUpload) :
    (navUpload s).step = .UPLOAD ∧
    (navUpload s).data = s.data ∧
    (navUpload s).audioFile = s.audioFile ∧
    (navUpload s).processingState = s.processingState ∧
    (s.data ≠ initialData → navUpload s ≠ resetApp s) := by
  refine ⟨rfl, rfl, rfl, rfl, fun hd hc => hd ?_⟩
  have := congrArg AppState.data hc
  simpa [navUpload, resetApp] using this

theorem C10_nav_upload_frame_witness :
    enabled richState .navUpload ∧
    ((navUpload richState).step = .UPLOAD ∧
      (navUpload richState).data = richState.data ∧
      (navUpload richState).audioFile = richState.audioFile ∧
      (navUpload richState).processingState = richState.processingState ∧
      (richState.data ≠ initialData →
        navUpload richState ≠ resetApp richState)) :=
  ⟨by simp [enabled, richState], C10_nav_upload_frame richState
    (by simp [enabled, richState])⟩

/-! ### Facts about `splitOnDot` -/

lemma splitOnDot_ne_nil (cs : List Char) : splitOnDot cs ≠ [] := by
  induction cs with
  | nil => simp [splitOnDot]
  | cons c rest ih =>
    unfold splitOnDot
    by_cases hc : c = '.'
    · simp [hc]
    · rw [if_neg hc]
      cases h : splitOnDot rest with
      | nil => simp
      | cons r rs => simp

lemma splitOnDot_append_dot (stem ext : List Char)
    (h : stem.contains '.' = false) :
    (splitOnDot (stem ++ '.' :: ext)).headD [] = stem := by
  induction stem with
  | nil => simp [splitOnDot]
  | cons c cs ih =>
    have hc : c ≠ '.' := by
      simp [List.contains_cons] at h
      exact fun he => h.1 he.symm
    have h' : cs.contains '.' = false := by
      simp [List.contains_cons] at h ⊢
      exact h.2
    show (splitOnDot (c :: (cs ++ '.' :: ext))).headD [] = c :: cs
    unfold splitOnDot
    rw [if_neg hc]
    cases hsp : splitOnDot (cs ++ '.' :: ext) with
    | nil => exact absurd hsp (splitOnDot_ne_nil _)
    | cons r rs =>
      have hr : r = cs := by
        have := ih h'
        rw [hsp] at this
        simpa using this
      simp [hr]

/-- C4 counterexample: a successful Minutes Service call returns the
gateway's text verbatim, so a compliant-looking call can succeed with
output containing none of the five section markers (here not even
"Summary"). -/
theorem C4_counterexample_success_without_markers :
    generateMeetingMinutes "Speaker 1: Hello." (.ok (some "OK")) =
      .ok "OK" ∧
    includes "OK" "Summary" = false :=
  ⟨rfl, by decide⟩

set_option maxRecDepth 40000 in
/-- C4 amended: the five section markers appear, in the fixed order
Summary, Attendees, Key Discussion Points, Decisions Made, Action Items,
in the instruction prompt the Minutes Service sends for every transcript;
the service itself returns the gateway's (non-empty) response text
unvalidated, so only the request — not the output — is guaranteed to
carry the five markers. -/
theorem C4_amended_markers_in_prompt_output_unvalidated
    (t x : String) (hx : x ≠ "") :
    (∃ p1 p2 p3 p4 p5 p6 : String,
      minutesRequest t =
        p1 ++ "Summary" ++ p2 ++ "Attendees" ++ p3 ++
          "Key Discussion Points" ++ p4 ++ "Decisions Made" ++ p5 ++
          "Action Items" ++ p6) ∧
    generateMeetingMinutes t (.ok (some x)) = .ok x := by
  constructor
  · exact
      ⟨"You are an expert executive assistant. Based on the following meeting transcript, generate structured Meeting Minutes in Markdown format.\n      \n      **Language Rules:**\n      - The output language MUST match the primary language of the transcript.\n      - If the transcript is in Chinese, the minutes MUST be in **Traditional Chinese (Taiwan)**.\n      \n      The output should strictly follow this structure (translate headers if output is not English):\n      # Meeting Minutes / 會議紀錄\n      \n      ## 1. ",
        " / 摘要\n      (A brief executive summary of the meeting)\n\n      ## 2. ",
        " / 出席人員\n      (List of inferred speakers or names mentioned)\n\n      ## 3. ",
        " / 重點討論事項\n      (Bulleted list of main topics discussed)\n\n      ## 4. ",
        " / 決議事項\n      (List of any conclusions or agreements reached)\n\n      ## 5. ",
        " / 待辦事項\n      (Checklist of tasks assigned to specific people, if any)\n\n      ---\n      Transcript:\n      " ++ t,
        rfl⟩
  · simp [generateMeetingMinutes, orFallback, hx]

theorem C4_amended_markers_in_prompt_output_unvalidated_witness :
    "A 5-section Markdown document" ≠ "" ∧
    ((∃ p1 p2 p3 p4 p5 p6 : String,
      minutesRequest "Speaker 1: Hello." =
        p1 ++ "Summary" ++ p2 ++ "Attendees" ++ p3 ++
          "Key Discussion Points" ++ p4 ++ "Decisions Made" ++ p5 ++
          "Action Items" ++ p6) ∧
    generateMeetingMinutes "Speaker 1: Hello."
        (.ok (some "A 5-section Markdown document")) =
      .ok "A 5-section Markdown document") :=
  ⟨by decide,
    C4_amended_markers_in_prompt_output_unvalidated "Speaker 1: Hello."
      "A 5-section Markdown document" (by decide)⟩

/-- C8 counterexample: for a file name with more than one dot the
download name keeps only the part before the first dot, not the basename
with the extension removed. -/
theorem C8_counterexample_first_dot_not_basename :
    downloadName "a.b.mp3" = "a_transcript.txt" ∧
    specBasename "a.b.mp3" ++ "_transcript.txt" = "a.b_transcript.txt" ∧
    downloadName "a.b.mp3" ≠ specBasename "a.b.mp3" ++ "_transcript.txt" := by
  refine ⟨rfl, rfl, ?_⟩
  decide

/-- C8 amended: the download name is the portion of the file name before
its first dot, followed by "_transcript.txt"; this agrees with the
basename-with-extension-removed reading only when the name contains at
most one dot. -/
theorem C8_amended_name_before_first_dot
    (stem ext : String) (h : stem.data.contains '.' = false) :
    downloadName (stem ++ "." ++ ext) = stem ++ "_transcript.txt" := by
  unfold downloadName
  have hdot : ("." : String).data = ['.'] := rfl
  have hdata : (stem ++ "." ++ ext).data = stem.data ++ '.' :: ext.data := by
    simp [String.data_append, hdot]
  rw [hdata, splitOnDot_append_dot _ _ h]

theorem C8_amended_name_before_first_dot_witness :
    ("meeting" : String).data.contains '.' = false ∧
    downloadName ("meeting" ++ "." ++ "mp3") = "meeting" ++ "_transcript.txt" :=
  ⟨by decide, C8_amended_name_before_first_dot "meeting" "mp3" (by decide)⟩

/-! ### Reachability invariant for C3 -/

lemma handleError_step_ne_minutes (s : AppState) (e m : String)
    (h : s.step ≠ .MINUTES) : (handleError s e m).step ≠ .MINUTES := by
  rcases handleError_step_or s e m with h' | h' <;> rw [h']
  · exact h
  · simp

lemma reachable_minutes_inv {s : AppState} (hr : Reachable s) :
    s.step = .MINUTES → s.data.transcript ≠ "" ∧ s.data.minutes ≠ "" := by
  induction hr with
  | init => intro h; exact absurd h (by simp [initState])
  | @step s a h1 h2 ih =>
    cases a with
    | fileSelect f g1 g2 =>
      obtain ⟨hstep, -⟩ := h2
      intro hm
      exfalso
      cases g1 with
      | ok t1 =>
        cases g2 with
        | ok t2 =>
          rw [show applyAction s (.fileSelect f (.ok t1) (.ok t2)) =
            handleFileSelect s f (.ok t1) (.ok t2) from rfl,
            handleFileSelect_ok_ok] at hm
          simp at hm
        | err e2 =>
          rw [show applyAction s (.fileSelect f (.ok t1) (.err e2)) =
            handleFileSelect s f (.ok t1) (.err e2) from rfl,
            handleFileSelect_ok_err] at hm
          exact handleError_step_ne_minutes _ _ _ (by simp [hstep]) hm
      | err e =>
        rw [show applyAction s (.fileSelect f (.err e) g2) =
          handleFileSelect s f (.err e) g2 from rfl,
          handleFileSelect_err1] at hm
        exact handleError_step_ne_minutes _ _ _ (by simp [hstep]) hm
    | generateMinutes g =>
      obtain ⟨hstep, -⟩ := h2
      intro hm
      rw [show applyAction s (.generateMinutes g) =
        (handleGenerateMinutes s g).1 from rfl] at hm ⊢
      by_cases htr : s.data.transcript = ""
      · unfold handleGenerateMinutes at hm
        rw [if_pos htr] at hm
        rw [hstep] at hm
        cases hm
      · cases g with
        | ok t =>
          rw [handleGenerateMinutes_ok s t htr] at hm ⊢
          exact ⟨htr, orFallback_ne_empty t (by decide)⟩
        | err e =>
          rw [handleGenerateMinutes_err s e htr] at hm
          exact absurd hm
            (handleError_step_ne_minutes _ _ _ (by simp [hstep]))
    | reset =>
      intro hm
      simp [applyAction, resetApp] at hm
    | navUpload =>
      intro hm
      simp [applyAction, navUpload] at hm
    | navReview =>
      intro hm
      exfalso
      by_cases hc : s.step = .MINUTES ∨ s.step = .TRANSCRIBE
      · simp [applyAction, navReview, hc] at hm
      · simp [applyAction, navReview, hc] at hm
        exact hc (Or.inl hm)
    | minutesBack =>
      intro hm
      simp [applyAction, minutesBack] at hm
    | editTranscript t =>
      have hst : s.step = .TRANSCRIBE := h2
      intro hm
      rw [show (applyAction s (.editTranscript t)).step = s.step from rfl,
        hst] at hm
      cases hm
    | dismissError =>
      intro hm
      rw [show (applyAction s .dismissError).step = s.step from rfl] at hm
      have := ih hm
      exact this
    | apiKeyOk =>
      intro hm
      simp [applyAction, apiKeySelectionOk] at hm
    | apiKeyErr e =>
      have hsa : s.step = .AUTH := h2
      intro hm
      exact absurd hm
        (handleError_step_ne_minutes _ _ _ (by simp [hsa]))
    | checkKey b =>
      intro hm
      cases b <;> simp [applyAction, checkKey] at hm

/-- C3: along any enabled transition out of a reachable state, entering
`TRANSCRIBE` implies the stored transcript is a non-empty string and
entering `MINUTES` implies the stored minutes are a non-empty string
(the services' empty-result fallbacks make the stored strings
non-empty). -/
theorem C3_entering_steps_require_nonempty_fields
    (s : AppState) (a : AppAction) (hr : Reachable s) (he : enabled s a) :
    ((applyAction s a).step = .TRANSCRIBE → s.step ≠ .TRANSCRIBE →
      (applyAction s a).data.transcript ≠ "") ∧
    ((applyAction s a).step = .MINUTES → s.step ≠ .MINUTES →
      (applyAction s a).data.minutes ≠ "") := by
  cases a with
  | fileSelect f g1 g2 =>
    obtain ⟨hstep, -⟩ := he
    constructor
    · intro h1 h2
      cases g1 with
      | ok t1 =>
        cases g2 with
        | ok t2 =>
          rw [show applyAction s (.fileSelect f (.ok t1) (.ok t2)) =
            handleFileSelect s f (.ok t1) (.ok t2) from rfl,
            handleFileSelect_ok_ok]
          exact orFallback_ne_empty t2
            (orFallback_ne_empty t1 (by decide))
        | err e2 =>
          rw [show applyAction s (.fileSelect f (.ok t1) (.err e2)) =
            handleFileSelect s f (.ok t1) (.err e2) from rfl,
            handleFileSelect_ok_err] at h1
          exfalso
          rcases handleError_step_or _ _ _ with h' | h' <;> rw [h'] at h1
          · rw [show ({ s with
                audioFile := some f,
                data := { s.data with
                            fileName := f.name, fileType := f.type },
                processingState :=
                  ⟨.PROCESSING,
                    "Refining transcript with AI... (Step 2/2)",
                    none⟩ } : AppState).step = s.step from rfl, hstep] at h1
            cases h1
          · cases h1
      | err e =>
        rw [show applyAction s (.fileSelect f (.err e) g2) =
          handleFileSelect s f (.err e) g2 from rfl,
          handleFileSelect_err1] at h1
        exfalso
        rcases handleError_step_or _ _ _ with h' | h' <;> rw [h'] at h1
        · rw [show ({ s with
              audioFile := some f,
              data := { s.data with
                          fileName := f.name, fileType := f.type },
              processingState :=
                ⟨.PROCESSING, "Transcribing audio... (Step 1/2)",
                  none⟩ } : AppState).step = s.step from rfl, hstep] at h1
          cases h1
        · cases h1
    · intro h1 h2
      exfalso
      cases g1 with
      | ok t1 =>
        cases g2 with
        | ok t2 =>
          rw [show applyAction s (.fileSelect f (.ok t1) (.ok t2)) =
            handleFileSelect s f (.ok t1) (.ok t2) from rfl,
            handleFileSelect_ok_ok] at h1
          simp at h1
        | err e2 =>
          rw [show applyAction s (.fileSelect f (.ok t1) (.err e2)) =
            handleFileSelect s f (.ok t1) (.err e2) from rfl,
            handleFileSelect_ok_err] at h1
          exact handleError_step_ne_minutes _ _ _ (by simp [hstep]) h1
      | err e =>
        rw [show applyAction s (.fileSelect f (.err e) g2) =
          handleFileSelect s f (.err e) g2 from rfl,
          handleFileSelect_err1] at h1
        exact handleError_step_ne_minutes _ _ _ (by simp [hstep]) h1
  | generateMinutes g =>
    obtain ⟨hstep, -⟩ := he
    constructor
    · intro h1 h2
      exact absurd hstep h2
    · intro h1 h2
      rw [show applyAction s (.generateMinutes g) =
        (handleGenerateMinutes s g).1 from rfl] at h1 ⊢
      by_cases htr : s.data.transcript = ""
      · unfold handleGenerateMinutes at h1
        rw [if_pos htr, hstep] at h1
        cases h1
      · cases g with
        | ok t =>
          rw [handleGenerateMinutes_ok s t htr]
          exact orFallback_ne_empty t (by decide)
        | err e =>
          rw [handleGenerateMinutes_err s e htr] at h1
          exact absurd h1
            (handleError_step_ne_minutes _ _ _ (by simp [hstep]))
  | reset =>
    constructor <;> intro h1 h2 <;> simp [applyAction, resetApp] at h1
  | navUpload =>
    constructor <;> intro h1 h2 <;> simp [applyAction, navUpload] at h1
  | navReview =>
    constructor
    · intro h1 h2
      by_cases hc : s.step = .MINUTES ∨ s.step = .TRANSCRIBE
      · have hsm : s.step = .MINUTES := by
          rcases hc with h | h
          · exact h
          · exact absurd h h2
        have := (reachable_minutes_inv hr hsm).1
        simpa [applyAction, navReview, hc] using this
      · simp [applyAction, navReview, hc] at h1
        exact absurd h1 h2
    · intro h1 h2
      exfalso
      by_cases hc : s.step = .MINUTES ∨ s.step = .TRANSCRIBE
      · simp [applyAction, navReview, hc] at h1
      · simp [applyAction, navReview, hc] at h1
        exact hc (Or.inl h1)
  | minutesBack =>
    have hsm : s.step = .MINUTES := he
    constructor
    · intro h1 h2
      have := (reachable_minutes_inv hr hsm).1
      simpa [applyAction, minutesBack] using this
    · intro h1 h2
      simp [applyAction, minutesBack] at h1
  | editTranscript t =>
    have hst : s.step = .TRANSCRIBE := he
    constructor
    · intro h1 h2
      exact absurd hst h2
    · intro h1 h2
      rw [show (applyAction s (.editTranscript t)).step = s.step from rfl,
        hst] at h1
      cases h1
  | dismissError =>
    constructor <;> intro h1 h2 <;>
      rw [show (applyAction s .dismissError).step = s.step from rfl] at h1 <;>
      exact absurd h1 h2
  | apiKeyOk =>
    constructor <;> intro h1 h2 <;>
      simp [applyAction, apiKeySelectionOk] at h1
  | apiKeyErr e =>
    have hsa : s.step = .AUTH := he
    constructor
    · intro h1 h2
      exfalso
      rcases handleError_step_or s e
        "Failed to select API Key. Please try again." with h' | h'
      · rw [show applyAction s (.apiKeyErr e) =
          handleError s e "Failed to select API Key. Please try again."
          from rfl, h', hsa] at h1
        cases h1
      · rw [show applyAction s (.apiKeyErr e) =
          handleError s e "Failed to select API Key. Please try again."
          from rfl, h'] at h1
        cases h1
    · intro h1 h2
      exact absurd h1 (handleError_step_ne_minutes _ _ _ (by simp [hsa]))
  | checkKey b =>
    constructor <;> intro h1 h2 <;> cases b <;>
      simp [applyAction, checkKey] at h1

theorem C3_entering_steps_require_nonempty_fields_witness :
    Reachable initState2 ∧
    enabled initState2
      (.fileSelect ⟨"meeting.mp3", "audio/mpeg", "QUJD"⟩
        (.ok (some "Speaker 1: Hello.")) (.ok (some "Speaker 1: Hello."))) ∧
    (((applyAction initState2
        (.fileSelect ⟨"meeting.mp3", "audio/mpeg", "QUJD"⟩
          (.ok (some "Speaker 1: Hello."))
          (.ok (some "Speaker 1: Hello.")))).step = .TRANSCRIBE →
        initState2.step ≠ .TRANSCRIBE →
        (applyAction initState2
          (.fileSelect ⟨"meeting.mp3", "audio/mpeg", "QUJD"⟩
            (.ok (some "Speaker 1: Hello."))
            (.ok (some "Speaker 1: Hello.")))).data.transcript ≠ "") ∧
      ((applyAction initState2
        (.fileSelect ⟨"meeting.mp3", "audio/mpeg", "QUJD"⟩
          (.ok (some "Speaker 1: Hello."))
          (.ok (some "Speaker 1: Hello.")))).step = .MINUTES →
        initState2.step ≠ .MINUTES →
        (applyAction initState2
          (.fileSelect ⟨"meeting.mp3", "audio/mpeg", "QUJD"⟩
            (.ok (some "Speaker 1: Hello."))
            (.ok (some "Speaker 1: Hello.")))).data.minutes ≠ "")) :=
  ⟨@Reachable.step initState (.checkKey true) Reachable.init
      (rfl : initState.step = .AUTH),
    ⟨rfl, by decide⟩,
    C3_entering_steps_require_nonempty_fields initState2
      (.fileSelect ⟨"meeting.mp3", "audio/mpeg", "QUJD"⟩
        (.ok (some "Speaker 1: Hello.")) (.ok (some "Speaker 1: Hello.")))
      (@Reachable.step initState (.checkKey true) Reachable.init
        (rfl : initState.step = .AUTH))
      ⟨rfl, by decide⟩⟩
